import Mathlib

/-!
Verification of the obinexus/wsys dual-vector sealing and self-healing
integrity core, as implemented in `src/auraseal.py` and
`src/auraseal512/src/v0.1/self_healing_data_architecture.py`.

Shallow embedding conventions:
* Python `bytes` values are `List Nat` (one entry per byte).
* The external cryptographic library calls of `auraseal.py`
  (`hashlib.sha256/sha512` digests, `ecdsa.SigningKey.from_string` /
  `verifying_key.to_string` / `sign` / `verify`) are parameters collected
  in a `Crypto` structure; the code under verification is everything the
  repository itself does around those calls.
* `base58.b58encode`/`b58decode` is a bijective transport layer; we model
  the transported value directly, with `none` standing for a string that
  `b58decode` rejects (raises on).
* The `ScalableBloomFilter` has no false negatives for added elements; it
  is modelled as the exact list of added fingerprints (membership on the
  byte vectors themselves, hex encoding being injective).
* Python exceptions are `Except`/`Option` error values; Python floats in
  this code only appear as decimal constants compared against decimal
  constants, so they are modelled exactly as rationals.
-/

namespace WSys

abbrev Bytes := List Nat

/-- External cryptographic primitives used by `src/auraseal.py`:
`sha256`/`sha512` are the digest functions, `ecPub` maps a private key
string to `SigningKey.from_string(priv).verifying_key.to_string()`,
`ecSign` is `sk.sign(msg)`, and `ecVerify` is
`verifying_key.verify(sig, msg)`, which either returns a Bool or raises
(`Except.error`). -/
structure Crypto where
  sha256 : Bytes → Bytes
  sha512 : Bytes → Bytes
  ecPub : Bytes → Bytes
  ecSign : Bytes → Bytes → Bytes
  ecVerify : Bytes → Bytes → Bytes → Except Unit Bool

/-- The ASCII bytes of `b"OBINexus_AURA_00_VETO"` (auraseal.py line 29). -/
def AURA_CTX : Bytes :=
  [79, 66, 73, 78, 101, 120, 117, 115, 95, 65, 85, 82, 65, 95, 48, 48, 95, 86, 69, 84, 79]

/-- The ASCII bytes of `b"AURA_PUB1"` (auraseal.py line 35). -/
def AURA_PUB1 : Bytes := [65, 85, 82, 65, 95, 80, 85, 66, 49]

/-- The ASCII bytes of `b"AURA_PUB2"` (auraseal.py line 36). -/
def AURA_PUB2 : Bytes := [65, 85, 82, 65, 95, 80, 85, 66, 50]

/-- The `AuraSeal` dataclass of `src/auraseal.py` (the `seal_id` and QR
rendering are presentation-only and not part of any claim). -/
structure AuraSealState where
  priv : Bytes
  pub1 : Bytes
  pub2 : Bytes
  bloom : List Bytes

namespace AuraSeal

/-- `AuraSeal.birth` (auraseal.py lines 25-50).  `fresh` stands for the
`secrets.token_bytes(256)` value substituted when the caller passes empty
entropy.  Note: the function performs no entropy-length validation. -/
def birth (c : Crypto) (fresh entropy : Bytes) : AuraSealState :=
  let e := if entropy = [] then fresh else entropy
  let priv := c.sha256 (e ++ AURA_CTX)
  let vk := c.ecPub priv
  let vk1 := vk.take 32
  let vk2 := vk.drop 32
  let pub1 := (c.sha512 (vk1 ++ AURA_PUB1)).take 32
  let pub2 := (c.sha512 (vk2 ++ AURA_PUB2)).take 32
  ⟨priv, pub1, pub2, [pub1, pub2]⟩

/-- `AuraSeal.heal` (auraseal.py lines 60-66): pick the stored vector that
differs from the damaged one and return it when it is membership-valid;
`none` models the raised `ValueError` ("Both vectors corrupted"). -/
def heal (s : AuraSealState) (damaged_pub : Bytes) : Option Bytes :=
  let candidate := if damaged_pub ≠ s.pub1 then s.pub1 else s.pub2
  if candidate ∈ s.bloom then some candidate else none

/-- `AuraSeal.sign` (auraseal.py lines 68-71): the base58-transported
payload `sig + pub1[:4] + pub2[:4]`. -/
def sign (c : Crypto) (s : AuraSealState) (msg : Bytes) : Bytes :=
  c.ecSign s.priv msg ++ s.pub1.take 4 ++ s.pub2.take 4

/-- The body of the `try:` block of `AuraSeal.verify` (auraseal.py lines
74-81).  `decoded = none` models a `b58decode` failure; the slices mirror
Python `data[:-8]`, `data[-8:-4]`, `data[-4:]` (clamped like Python);
`SigningKey.from_string` raises unless the key string has 32 bytes; the
`and` on line 81 short-circuits, so `ecVerify` (which raises on a bad
signature) only runs when the verifying-key comparison succeeds. -/
def verifyBody (c : Crypto) (s : AuraSealState) (msg : Bytes) (decoded : Option Bytes) :
    Except Unit Bool :=
  match decoded with
  | none => Except.error ()
  | some data =>
    let sig := data.take (data.length - 8)
    let p1 := (data.drop (data.length - 8)).take (data.length - 4 - (data.length - 8))
    let p2 := data.drop (data.length - 4)
    if p1 ≠ s.pub1.take 4 ∨ p2 ≠ s.pub2.take 4 then Except.ok false
    else if s.priv.length ≠ 32 then Except.error ()
    else if c.ecPub s.priv = s.pub1 ++ s.pub2 then c.ecVerify (c.ecPub s.priv) sig msg
    else Except.ok false

/-- `AuraSeal.verify` (auraseal.py lines 73-83): the bare `except:` folds
every error raised in the body into a plain `false`. -/
def verify (c : Crypto) (s : AuraSealState) (msg : Bytes) (decoded : Option Bytes) : Bool :=
  match verifyBody c s msg decoded with
  | Except.ok b => b
  | Except.error _ => false

/-- A concrete instantiation of the crypto parameters used to evaluate the
embedded functions at specific inputs. -/
def cFix : Crypto :=
  ⟨fun _ => List.replicate 32 0,
   fun _ => List.replicate 64 3,
   fun _ => List.replicate 64 7,
   fun _ _ => [1, 2, 3],
   fun _ _ _ => Except.ok true⟩

/-- Helper: `heal` on any state whose membership oracle holds exactly the
two stored vectors (as every `birth`-produced state does). -/
theorem heal_of_bloom_pair (s : AuraSealState) (hb : s.bloom = [s.pub1, s.pub2])
    (damaged : Bytes) :
    (damaged ≠ s.pub1 → heal s damaged = some s.pub1) ∧
    (damaged = s.pub1 → heal s damaged = some s.pub2) ∧
    (∀ v, heal s damaged = some v → v ∈ s.bloom) ∧
    (heal s damaged = none ↔ (s.pub1 ∉ s.bloom ∧ s.pub2 ∉ s.bloom)) := by
  have h1 : s.pub1 ∈ s.bloom := by rw [hb]; exact List.mem_cons_self _ _
  have h2 : s.pub2 ∈ s.bloom := by
    rw [hb]; exact List.mem_cons_of_mem _ (List.mem_cons_self _ _)
  refine ⟨?_, ?_, ?_, ?_⟩
  · intro hd
    simp only [heal, if_pos hd, if_pos h1]
  · intro hd
    have hne : ¬ (damaged ≠ s.pub1) := by simp [hd]
    simp only [heal, if_neg hne, if_pos h2]
  · intro v hv
    by_cases hd : damaged ≠ s.pub1
    · simp only [heal, if_pos hd, if_pos h1, Option.some.injEq] at hv
      exact hv ▸ h1
    · simp only [heal, if_neg hd, if_pos h2, Option.some.injEq] at hv
      exact hv ▸ h2
  · constructor
    · intro hnone
      by_cases hd : damaged ≠ s.pub1
      · simp only [heal, if_pos hd, if_pos h1] at hnone
        exact (Option.some_ne_none _ hnone).elim
      · simp only [heal, if_neg hd, if_pos h2] at hnone
        exact (Option.some_ne_none _ hnone).elim
    · intro ⟨hn1, _⟩
      exact absurd h1 hn1

end AuraSeal

/-!
Embedding of `src/auraseal512/src/v0.1/self_healing_data_architecture.py`.
Vector elements are Python ints, modelled as `Int`; scores are the exact
rationals behind the Python float literals.
-/

namespace SelfHealing

/-- `IsomorphicValidationEngine.validate_compatibility` result object
(self_healing_data_architecture.py lines 81-86). -/
structure AuthenticityResult where
  is_authentic : Bool
  failure_vectors : Option (List Int × List Int)
  integrity_score : ℚ
  authenticity_score : ℚ
deriving DecidableEq

/-- `IsomorphicValidationEngine.validate_compatibility`
(self_healing_data_architecture.py lines 79-87): authenticity is the
equal-length test; scores are 0.95 on success and 0.0 on failure. -/
def validate_compatibility (data_vector algo_vector : List Int) : AuthenticityResult :=
  let auth := data_vector.length == algo_vector.length
  ⟨auth,
   if auth then none else some (data_vector, algo_vector),
   if auth then mkRat 95 100 else 0,
   if auth then mkRat 95 100 else 0⟩

/-- `SelfHealingDataArchitecture._calculate_recovery_probability`
(lines 309-313): the bitwise agreement ratio — matching positions over
the longer length, 0 for empty vectors. -/
def calculate_recovery_probability (primary_vector secondary_vector : List Int) : ℚ :=
  let matched := (List.zip primary_vector secondary_vector).countP (fun ps => ps.1 == ps.2)
  let total := max primary_vector.length secondary_vector.length
  if total > 0 then mkRat matched total else 0

/-- The default coherence threshold, from
`PhenoAVL.__init__(coherence_threshold=0.954)`
(src/auraseal512/src/pyauraseal514.py line 249). -/
def coherence_threshold_default : ℚ := mkRat 954 1000

/-- `CORRUPTION_THRESHOLD = 0.7` (self_healing_data_architecture.py line 3). -/
def CORRUPTION_THRESHOLD : ℚ := mkRat 7 10

/-- The indicator object produced by `PatternRecognitionEngine.analyze`
(lines 202-205). -/
structure CorruptionIndicators where
  corruption_probability : ℚ
  integrity_score : ℚ
deriving DecidableEq

/-- `PatternRecognitionEngine.analyze` (lines 200-206): always reports
corruption probability 0.1 and integrity score 0.95, whatever the
reference is. -/
def pattern_recognition_analyze {α : Type} (program_reference : α) : CorruptionIndicators :=
  ⟨mkRat 1 10, mkRat 95 100⟩

/-- `CorruptionAnalysisResult` (lines 34-38). -/
structure CorruptionAnalysisResult where
  corruption_detected : Bool
  integrity_score : ℚ
  reference_validity : Bool
deriving DecidableEq

/-- The analysis object of
`BinaryReconstructionProtocol.analyze_corruption_vectors` (lines 209-215). -/
structure ReconstructionAnalysis where
  recoverable_segments : List Int
  reconstruction_matrix : List (List Int)
  recovery_confidence : ℚ
deriving DecidableEq

/-- `BinaryReconstructionProtocol.analyze_corruption_vectors`
(lines 209-215): constant fixture analysis. -/
def analyze_corruption_vectors {α : Type} (corrupted_reference : α)
    (corruption_indicators : CorruptionIndicators) : ReconstructionAnalysis :=
  ⟨[1, 0, 1, 0], [[1, 0], [0, 1]], mkRat 9 10⟩

/-- `BinaryReconstructionProtocol.reconstruct_from_patterns`
(lines 217-219): returns the segments unchanged. -/
def reconstruct_from_patterns (segments : List Int) (matrix : List (List Int)) : List Int :=
  segments

/-- `RecoveredReferenceResult` (lines 40-44). -/
structure RecoveredReferenceResult where
  recovered_program_reference : List Int
  recovery_confidence : ℚ
  validation_required : Bool
deriving DecidableEq

/-- The two possible returns of
`CorruptReferenceRecoverySystem.detect_corruption_signatures`. -/
inductive DetectOutcome where
  | recovery (r : RecoveredReferenceResult)
  | analysis (a : CorruptionAnalysisResult)
deriving DecidableEq

/-- `CorruptReferenceRecoverySystem._initiate_reference_recovery`
(lines 239-251); note the `validation_required=False` flag. -/
def initiate_reference_recovery {α : Type} (corrupted_reference : α)
    (corruption_indicators : CorruptionIndicators) : RecoveredReferenceResult :=
  let pa := analyze_corruption_vectors corrupted_reference corruption_indicators
  ⟨reconstruct_from_patterns pa.recoverable_segments pa.reconstruction_matrix,
   pa.recovery_confidence, false⟩

/-- The routing step of
`CorruptReferenceRecoverySystem.detect_corruption_signatures`
(lines 230-237), factored over the indicators the pattern engine
returned: escalate to recovery when the probability exceeds
`CORRUPTION_THRESHOLD`, otherwise report no corruption with the
integrity score reported by the analyzer. -/
def detect_route {α : Type} (program_reference : α)
    (corruption_indicators : CorruptionIndicators) : DetectOutcome :=
  if corruption_indicators.corruption_probability > CORRUPTION_THRESHOLD then
    DetectOutcome.recovery (initiate_reference_recovery program_reference corruption_indicators)
  else
    DetectOutcome.analysis ⟨false, corruption_indicators.integrity_score, true⟩

/-- `CorruptReferenceRecoverySystem.detect_corruption_signatures`
(lines 227-237). -/
def detect_corruption_signatures {α : Type} (program_reference : α) : DetectOutcome :=
  detect_route program_reference (pattern_recognition_analyze program_reference)

/-- `BinaryEncodingProcessor._calculate_binary_checksum` (lines 105-110):
the `is_valid` parity bit (sum of the vector is even). -/
def calculate_binary_checksum_is_valid (vector : List Int) : Bool :=
  vector.sum % 2 == 0

/-- The matrix object of
`BinaryEncodingProcessor._compute_cross_validation_matrix` (lines 112-118). -/
structure CrossValidationMatrix where
  corruption_detected : Bool
  validation_score : ℚ
deriving DecidableEq

/-- `BinaryEncodingProcessor._compute_cross_validation_matrix`
(lines 112-118): corruption iff either checksum failed; score 0.9 clean /
0.2 corrupted. -/
def compute_cross_validation_matrix (data_check algo_check : Bool) : CrossValidationMatrix :=
  let corr := !(data_check && algo_check)
  ⟨corr, if corr then mkRat 2 10 else mkRat 9 10⟩

/-- `ValidationResult` (lines 22-26). -/
structure ValidationResult where
  data_integrity : Bool
  algorithm_integrity : Bool
  cross_validation_score : ℚ
deriving DecidableEq

/-- `RecoveryResult` (lines 28-32). -/
structure RecoveryResult where
  recovered_data_vector : List Int
  recovered_algorithm_vector : List Int
  recovery_confidence : ℚ
deriving DecidableEq

/-- `BinaryEncodingProcessor._reconstruct_from_pattern_redundancy`
(lines 144-150): empty vectors pass through, otherwise the first bit is
flipped (`fixed[0] = 1 - fixed[0]`). -/
def reconstruct_from_pattern_redundancy (corrupted_vector : List Int) : List Int :=
  match corrupted_vector with
  | [] => []
  | b :: rest => (1 - b) :: rest

/-- `BinaryEncodingProcessor._initiate_self_recovery_protocol`
(lines 134-142). -/
def initiate_self_recovery_protocol (corrupted_data corrupted_algorithm : List Int) :
    RecoveryResult :=
  ⟨reconstruct_from_pattern_redundancy corrupted_data,
   reconstruct_from_pattern_redundancy corrupted_algorithm, mkRat 95 100⟩

/-- The two possible returns of
`BinaryEncodingProcessor.validate_encoding_integrity`. -/
inductive EncodingValidationOutcome where
  | validation (v : ValidationResult)
  | recovery (r : RecoveryResult)
deriving DecidableEq

/-- `BinaryEncodingProcessor.validate_encoding_integrity` (lines 120-132). -/
def validate_encoding_integrity (data_vector algorithm_vector : List Int) :
    EncodingValidationOutcome :=
  let data_checksum := calculate_binary_checksum_is_valid data_vector
  let algorithm_checksum := calculate_binary_checksum_is_valid algorithm_vector
  let integrity_matrix := compute_cross_validation_matrix data_checksum algorithm_checksum
  if integrity_matrix.corruption_detected then
    EncodingValidationOutcome.recovery
      (initiate_self_recovery_protocol data_vector algorithm_vector)
  else
    EncodingValidationOutcome.validation
      ⟨data_checksum, algorithm_checksum, integrity_matrix.validation_score⟩

/-- `ExecutionNode` (lines 52-56). -/
structure ExecutionNode where
  x_position : Int
  y_position : Int
  context_binding : Bool
deriving DecidableEq

/-- `ContextBoundExecution` (lines 58-62). -/
structure ContextBoundExecution where
  execution_coordinate : ExecutionNode
  data_algorithm_alignment : Bool
  fault_tolerance_capability : ℚ
deriving DecidableEq

/-- `CoordinateSystemMapper.map_data_vector_to_x_axis` (lines 155-156). -/
def map_data_vector_to_x_axis (data_encoding : List Int) : Int := data_encoding.sum

/-- `CoordinateSystemMapper.map_algorithm_vector_to_y_axis` (lines 158-159). -/
def map_algorithm_vector_to_y_axis (algorithm_encoding : List Int) : Int :=
  algorithm_encoding.sum

/-- `ContextBoundValidator.validate_coordinate_context` (lines 163-165):
context is valid when `x + y > 0`. -/
def validate_coordinate_context (x y : Int) : Bool := decide (0 < x + y)

/-- `ContextBoundExecutionEngine._validate_coordinate_alignment`
(lines 189-191). -/
def validate_coordinate_alignment (node : ExecutionNode) : Bool :=
  node.context_binding && (node.x_position == node.y_position)

/-- `ContextBoundExecutionEngine._assess_coordinate_fault_tolerance`
(lines 193-195): 0.9 when the node has context binding, 0.1 otherwise. -/
def assess_coordinate_fault_tolerance (node : ExecutionNode) : ℚ :=
  if node.context_binding then mkRat 9 10 else mkRat 1 10

/-- `ContextBoundExecutionEngine.map_execution_coordinates` (lines 173-187). -/
def map_execution_coordinates (data_encoding algorithm_encoding : List Int) :
    ContextBoundExecution :=
  let x := map_data_vector_to_x_axis data_encoding
  let y := map_algorithm_vector_to_y_axis algorithm_encoding
  let node : ExecutionNode := ⟨x, y, validate_coordinate_context x y⟩
  ⟨node, validate_coordinate_alignment node, assess_coordinate_fault_tolerance node⟩

/-- `DataModelEncoder.encode` (lines 66-69): four elements read cyclically
from the format pattern; the payload is never consulted.  `getD` with
default 0 stands for Python indexing, which is only reached for non-empty
patterns. -/
def data_model_encode {α : Type} (data : α) (format : List Int) : List Int :=
  (List.range 4).map (fun i => format.getD (i % format.length) 0)

/-- `AlgorithmEncoder.encode` (lines 71-74): identical expansion. -/
def algorithm_encode {α : Type} (logic : α) (format : List Int) : List Int :=
  (List.range 4).map (fun i => format.getD (i % format.length) 0)

/-- `FaultTolerantDataStructure` (lines 10-14). -/
structure FaultTolerantDataStructure where
  primary_vector : List Int
  secondary_vector : List Int
  recovery_capability : ℚ
deriving DecidableEq

/-- `FaultTolerantAlgorithmStructure` (lines 16-20). -/
structure FaultTolerantAlgorithmStructure where
  execution_encoding : List Int
  context_encoding : List Int
  xy_coordinate_mapping : ContextBoundExecution
deriving DecidableEq

/-- `SelfHealingDataArchitecture.process_data_model_encoding` (lines 267-277). -/
def process_data_model_encoding {α : Type} (raw_data : α) : FaultTolerantDataStructure :=
  let primary := data_model_encode raw_data [0, 1, 0, 1]
  let secondary := data_model_encode raw_data [1, 1, 1, 0]
  ⟨primary, secondary, calculate_recovery_probability primary secondary⟩

/-- `SelfHealingDataArchitecture.process_algorithm_encoding` (lines 279-289). -/
def process_algorithm_encoding {α : Type} (algorithm_logic : α) :
    FaultTolerantAlgorithmStructure :=
  let execution_vector := algorithm_encode algorithm_logic [1, 1, 1, 0]
  let context_vector := algorithm_encode algorithm_logic [1, 0, 0, 0]
  ⟨execution_vector, context_vector,
   map_execution_coordinates execution_vector context_vector⟩

end SelfHealing

/-! Claim theorems -/

/-- Claim C1 (code defect): for every identity produced by `birth`, as soon
as the ECDSA verifying key of the stored private key differs from the
concatenation `pub1 ++ pub2` of the two hashed public healing vectors —
which is the case for the real primitives, since each `pub_i` is a
truncated SHA-512 of half the verifying key and equality would need a hash
fixed point — `verify` rejects the signature that `sign` just produced over
any payload, contradicting the claimed soundness. -/
theorem aura_verify_of_sign_false (c : Crypto) (fresh entropy msg : Bytes)
    (h : c.ecPub (AuraSeal.birth c fresh entropy).priv ≠
      (AuraSeal.birth c fresh entropy).pub1 ++ (AuraSeal.birth c fresh entropy).pub2) :
    AuraSeal.verify c (AuraSeal.birth c fresh entropy) msg
      (some (AuraSeal.sign c (AuraSeal.birth c fresh entropy) msg)) = false := by
  set s := AuraSeal.birth c fresh entropy with hs
  unfold AuraSeal.verify
  have hbody : AuraSeal.verifyBody c s msg (some (AuraSeal.sign c s msg)) = Except.ok false ∨
      AuraSeal.verifyBody c s msg (some (AuraSeal.sign c s msg)) = Except.error () := by
    unfold AuraSeal.verifyBody
    dsimp only
    split_ifs with h1 h2
    · exact Or.inl rfl
    · exact Or.inr rfl
    · exact Or.inl rfl
  rcases hbody with h' | h' <;> rw [h']

/-- Witness for C1: a concrete crypto instantiation and entropy where the
verifying-key comparison fails and verification of a fresh signature
returns false. -/
theorem aura_verify_of_sign_false_witness :
    AuraSeal.cFix.ecPub (AuraSeal.birth AuraSeal.cFix [] [65]).priv ≠
      (AuraSeal.birth AuraSeal.cFix [] [65]).pub1 ++
        (AuraSeal.birth AuraSeal.cFix [] [65]).pub2 ∧
    AuraSeal.verify AuraSeal.cFix (AuraSeal.birth AuraSeal.cFix [] [65]) [104, 105]
      (some (AuraSeal.sign AuraSeal.cFix (AuraSeal.birth AuraSeal.cFix [] [65])
        [104, 105])) = false :=
  ⟨by decide, aura_verify_of_sign_false AuraSeal.cFix [] [65] [104, 105] (by decide)⟩

/-- Claim C2: for every identity produced by `birth` (whose oracle holds
exactly the two derived vectors), `heal` returns the intact stored vector
when the damaged argument differs from it, every healed vector is
membership-valid, and healing fails (`DualVectorCorruption`) exactly when
neither stored vector is membership-valid — which never happens for a
birth-derived pair. -/
theorem aura_heal_spec (c : Crypto) (fresh entropy damaged : Bytes) :
    (damaged ≠ (AuraSeal.birth c fresh entropy).pub1 →
      AuraSeal.heal (AuraSeal.birth c fresh entropy) damaged =
        some (AuraSeal.birth c fresh entropy).pub1) ∧
    (damaged = (AuraSeal.birth c fresh entropy).pub1 →
      AuraSeal.heal (AuraSeal.birth c fresh entropy) damaged =
        some (AuraSeal.birth c fresh entropy).pub2) ∧
    (∀ v, AuraSeal.heal (AuraSeal.birth c fresh entropy) damaged = some v →
      v ∈ (AuraSeal.birth c fresh entropy).bloom) ∧
    (AuraSeal.heal (AuraSeal.birth c fresh entropy) damaged = none ↔
      ((AuraSeal.birth c fresh entropy).pub1 ∉ (AuraSeal.birth c fresh entropy).bloom ∧
       (AuraSeal.birth c fresh entropy).pub2 ∉ (AuraSeal.birth c fresh entropy).bloom)) :=
  AuraSeal.heal_of_bloom_pair (AuraSeal.birth c fresh entropy) rfl damaged

/-- Witness for C2: healing a corrupted (unknown) vector against a concrete
birth-derived identity returns the first stored healing vector. -/
theorem aura_heal_spec_witness :
    ([] : Bytes) ≠ (AuraSeal.birth AuraSeal.cFix [] [65]).pub1 ∧
    AuraSeal.heal (AuraSeal.birth AuraSeal.cFix [] [65]) [] =
      some (AuraSeal.birth AuraSeal.cFix [] [65]).pub1 :=
  ⟨by decide, (aura_heal_spec AuraSeal.cFix [] [65] []).1 (by decide)⟩

/-- Counterexample for C6: one byte of entropy (fewer than 32 bytes) is not
rejected — `birth` completes the derivation, registers both vectors in the
membership oracle, and derives the private anchor from that short entropy. -/
theorem aura_birth_short_entropy_cex :
    List.length [65] < 32 ∧
    (AuraSeal.birth AuraSeal.cFix [] [65]).pub1 ∈
      (AuraSeal.birth AuraSeal.cFix [] [65]).bloom ∧
    (AuraSeal.birth AuraSeal.cFix [] [65]).pub2 ∈
      (AuraSeal.birth AuraSeal.cFix [] [65]).bloom ∧
    (AuraSeal.birth AuraSeal.cFix [] [65]).priv =
      AuraSeal.cFix.sha256 ([65] ++ AURA_CTX) := by decide

/-- Claim C6 as amended: `birth` imposes no minimum entropy length — every
non-empty entropy, in particular any entropy shorter than 32 bytes,
produces a fully derived identity with both public vectors registered in
the membership oracle, rather than failing with `InsufficientEntropy`. -/
theorem aura_birth_no_entropy_minimum (c : Crypto) (fresh entropy : Bytes)
    (hne : entropy ≠ []) (hshort : entropy.length < 32) :
    (AuraSeal.birth c fresh entropy).priv = c.sha256 (entropy ++ AURA_CTX) ∧
    (AuraSeal.birth c fresh entropy).pub1 ∈ (AuraSeal.birth c fresh entropy).bloom ∧
    (AuraSeal.birth c fresh entropy).pub2 ∈ (AuraSeal.birth c fresh entropy).bloom := by
  have hb : (AuraSeal.birth c fresh entropy).bloom =
      [(AuraSeal.birth c fresh entropy).pub1, (AuraSeal.birth c fresh entropy).pub2] := rfl
  refine ⟨?_, ?_, ?_⟩
  · simp only [AuraSeal.birth, if_neg hne]
  · rw [hb]; exact List.mem_cons_self _ _
  · rw [hb]; exact List.mem_cons_of_mem _ (List.mem_cons_self _ _)

/-- Witness for C6 (amended): the 1-byte entropy `[65]` derives a complete
identity. -/
theorem aura_birth_no_entropy_minimum_witness :
    ([65] : Bytes) ≠ [] ∧ List.length [65] < 32 ∧
    (AuraSeal.birth AuraSeal.cFix [] [65]).priv =
      AuraSeal.cFix.sha256 ([65] ++ AURA_CTX) :=
  ⟨by decide, by decide,
    (aura_birth_no_entropy_minimum AuraSeal.cFix [] [65] (by decide) (by decide)).1⟩

/-- Claim C7: `verify` is total — any error raised inside its body (an
undecodable signature string, a malformed private key, a bad ECDSA
signature) is folded by the bare `except:` into the plain return value
`false`, and a `true` verdict can only arise from an error-free run of the
body. -/
theorem aura_verify_total (c : Crypto) (s : AuraSealState) (msg : Bytes)
    (decoded : Option Bytes) :
    (∀ e, AuraSeal.verifyBody c s msg decoded = Except.error e →
      AuraSeal.verify c s msg decoded = false) ∧
    (AuraSeal.verify c s msg decoded = true →
      AuraSeal.verifyBody c s msg decoded = Except.ok true) := by
  constructor
  · intro e he
    unfold AuraSeal.verify
    rw [he]
  · intro ht
    unfold AuraSeal.verify at ht
    cases hb : AuraSeal.verifyBody c s msg decoded with
    | ok b =>
      rw [hb] at ht
      cases b with
      | true => rfl
      | false => simp at ht
    | error e =>
      rw [hb] at ht
      simp at ht

/-- Witness for C7: an undecodable signature string (the decode error case)
makes the body raise and `verify` return false. -/
theorem aura_verify_total_witness :
    AuraSeal.verifyBody AuraSeal.cFix (AuraSeal.birth AuraSeal.cFix [] [65]) [104] none =
      Except.error () ∧
    AuraSeal.verify AuraSeal.cFix (AuraSeal.birth AuraSeal.cFix [] [65]) [104] none = false :=
  ⟨rfl, (aura_verify_total AuraSeal.cFix (AuraSeal.birth AuraSeal.cFix [] [65])
    [104] none).1 () rfl⟩

/-- Counterexample for C3: two equal-length vectors with bitwise agreement
ratio 0 (below the 0.954 coherence threshold) are nevertheless reported
authentic, so authenticity does not require the agreement-ratio condition. -/
theorem validate_compatibility_ratio_cex :
    (SelfHealing.validate_compatibility [0] [1]).is_authentic = true ∧
    SelfHealing.calculate_recovery_probability [0] [1] <
      SelfHealing.coherence_threshold_default := by decide

/-- Claim C3 as amended: `validate_compatibility` reports `is_authentic`
exactly when the two vectors have equal length; no bitwise-agreement test
against the coherence threshold is performed.  In particular unequal-length
vectors are always rejected. -/
theorem validate_compatibility_length_gate (d a : List Int) :
    ((SelfHealing.validate_compatibility d a).is_authentic =
      (d.length == a.length)) ∧
    (d.length ≠ a.length →
      (SelfHealing.validate_compatibility d a).is_authentic = false) := by
  refine ⟨rfl, ?_⟩
  intro hne
  have hb : (d.length == a.length) = false := beq_eq_false_iff_ne.mpr hne
  exact hb

/-- Witness for C3 (amended): a length-1 and a length-2 vector are not
authentic. -/
theorem validate_compatibility_length_gate_witness :
    List.length ([0] : List Int) ≠ List.length ([1, 2] : List Int) ∧
    (SelfHealing.validate_compatibility [0] [1, 2]).is_authentic = false :=
  ⟨by decide, (validate_compatibility_length_gate [0] [1, 2]).2 (by decide)⟩

/-- Counterexample for C5: on identical vectors `validate_compatibility`
does return `is_authentic = true`, but its reported scores are 0.95, which
is strictly below the default coherence threshold 0.954. -/
theorem validate_compatibility_reflexive_cex :
    (SelfHealing.validate_compatibility [0] [0]).is_authentic = true ∧
    (SelfHealing.validate_compatibility [0] [0]).integrity_score <
      SelfHealing.coherence_threshold_default ∧
    (SelfHealing.validate_compatibility [0] [0]).authenticity_score <
      SelfHealing.coherence_threshold_default := by decide

/-- Claim C5 as amended: `validate_compatibility(v, v)` always returns
`is_authentic = true`, with both scores equal to the constant 0.95 — a
value strictly below the default coherence threshold 0.954. -/
theorem validate_compatibility_reflexive (v : List Int) :
    (SelfHealing.validate_compatibility v v).is_authentic = true ∧
    (SelfHealing.validate_compatibility v v).integrity_score = mkRat 95 100 ∧
    (SelfHealing.validate_compatibility v v).authenticity_score = mkRat 95 100 ∧
    mkRat 95 100 < SelfHealing.coherence_threshold_default := by
  have hauth : (v.length == v.length) = true := beq_self_eq_true _
  refine ⟨hauth, ?_, ?_, by decide⟩
  · show (if (v.length == v.length) = true then mkRat 95 100 else 0) = mkRat 95 100
    rw [if_pos hauth]
  · show (if (v.length == v.length) = true then mkRat 95 100 else 0) = mkRat 95 100
    rw [if_pos hauth]

/-- Counterexample for C4: on a concrete reference, `detect` reports no
corruption (the reported probability 0.1 is below the 0.7 threshold) but
the returned integrity score is the constant 0.95 from the analyzer, not
`1 - corruption_probability = 0.9`. -/
theorem detect_integrity_score_cex :
    SelfHealing.detect_corruption_signatures (0 : Nat) =
      SelfHealing.DetectOutcome.analysis ⟨false, mkRat 95 100, true⟩ ∧
    (SelfHealing.pattern_recognition_analyze (0 : Nat)).corruption_probability = mkRat 1 10 ∧
    ¬ ((mkRat 95 100 : ℚ) = 1 - mkRat 1 10) := by
  refine ⟨by decide, by decide, ?_⟩
  rw [Rat.mkRat_eq_div, Rat.mkRat_eq_div]
  norm_num

/-- Claim C4 as amended: the detector escalates to reconstruction exactly
when the computed corruption probability exceeds the 0.7 threshold, and
otherwise returns `corruption_detected = false` with the integrity score
reported by the analyzer (not `1 - probability`); with the constant pattern engine
the probability is always 0.1, so `detect` never escalates. -/
theorem detect_routing (α : Type) (ref : α) (ind : SelfHealing.CorruptionIndicators) :
    ((∃ r, SelfHealing.detect_route ref ind = SelfHealing.DetectOutcome.recovery r) ↔
      SelfHealing.CORRUPTION_THRESHOLD < ind.corruption_probability) ∧
    (ind.corruption_probability ≤ SelfHealing.CORRUPTION_THRESHOLD →
      SelfHealing.detect_route ref ind =
        SelfHealing.DetectOutcome.analysis ⟨false, ind.integrity_score, true⟩) ∧
    SelfHealing.detect_corruption_signatures ref =
      SelfHealing.DetectOutcome.analysis
        ⟨false, (SelfHealing.pattern_recognition_analyze ref).integrity_score, true⟩ := by
  refine ⟨⟨?_, ?_⟩, ?_, ?_⟩
  · rintro ⟨r, hr⟩
    by_contra hle
    rw [SelfHealing.detect_route.eq_def, if_neg hle] at hr
    exact SelfHealing.DetectOutcome.noConfusion hr
  · intro hgt
    exact ⟨_, by rw [SelfHealing.detect_route.eq_def, if_pos hgt]⟩
  · intro hle
    rw [SelfHealing.detect_route.eq_def, if_neg (not_lt.mpr hle)]
  · rw [SelfHealing.detect_corruption_signatures.eq_def,
      SelfHealing.detect_route.eq_def, if_neg]
    norm_num [SelfHealing.pattern_recognition_analyze, SelfHealing.CORRUPTION_THRESHOLD]

/-- Witness for C4 (amended): with the constant indicators of the analyzer
(probability 0.1 ≤ 0.7), routing returns the no-corruption analysis. -/
theorem detect_routing_witness :
    mkRat 1 10 ≤ SelfHealing.CORRUPTION_THRESHOLD ∧
    SelfHealing.detect_route (0 : Nat) ⟨mkRat 1 10, mkRat 95 100⟩ =
      SelfHealing.DetectOutcome.analysis ⟨false, mkRat 95 100, true⟩ :=
  ⟨by decide, (detect_routing Nat 0 ⟨mkRat 1 10, mkRat 95 100⟩).2.1 (by decide)⟩

/-- Counterexample for C8: two even-parity vectors pass both checksums and
yield `cross_validation_score = 0.9`, yet their bitwise agreement ratio is
0 — the reported score is a constant, not the agreement ratio. -/
theorem validate_encoding_score_cex :
    SelfHealing.validate_encoding_integrity [0, 0] [1, 1] =
      SelfHealing.EncodingValidationOutcome.validation ⟨true, true, mkRat 9 10⟩ ∧
    SelfHealing.calculate_recovery_probability [0, 0] [1, 1] = 0 ∧
    mkRat 9 10 ≠ 0 := by decide

/-- Claim C8 as amended: `validate_encoding_integrity` checksums each
vector; when both parities pass it returns a `ValidationResult` whose
`cross_validation_score` is the constant 0.9 (a value in `[0, 1]`, but not
the bitwise agreement ratio); when either parity fails it invokes the
self-recovery protocol and returns its `RecoveryResult`. -/
theorem validate_encoding_routing (d a : List Int) :
    ((SelfHealing.calculate_binary_checksum_is_valid d &&
        SelfHealing.calculate_binary_checksum_is_valid a) = true →
      SelfHealing.validate_encoding_integrity d a =
        SelfHealing.EncodingValidationOutcome.validation ⟨true, true, mkRat 9 10⟩ ∧
      (0 : ℚ) ≤ mkRat 9 10 ∧ mkRat 9 10 ≤ 1) ∧
    ((SelfHealing.calculate_binary_checksum_is_valid d &&
        SelfHealing.calculate_binary_checksum_is_valid a) = false →
      SelfHealing.validate_encoding_integrity d a =
        SelfHealing.EncodingValidationOutcome.recovery
          (SelfHealing.initiate_self_recovery_protocol d a)) := by
  constructor
  · intro h
    obtain ⟨hd, ha⟩ := Bool.and_eq_true _ _ |>.mp h
    refine ⟨?_, by decide, by decide⟩
    simp [SelfHealing.validate_encoding_integrity,
      SelfHealing.compute_cross_validation_matrix, hd, ha]
  · intro h
    simp [SelfHealing.validate_encoding_integrity,
      SelfHealing.compute_cross_validation_matrix, h]

/-- Witness for C8 (amended): both even-parity inputs route to the
validation result with the constant score. -/
theorem validate_encoding_routing_witness :
    (SelfHealing.calculate_binary_checksum_is_valid [0, 0] &&
      SelfHealing.calculate_binary_checksum_is_valid [1, 1]) = true ∧
    SelfHealing.validate_encoding_integrity [0, 0] [1, 1] =
      SelfHealing.EncodingValidationOutcome.validation ⟨true, true, mkRat 9 10⟩ :=
  ⟨by decide, ((validate_encoding_routing [0, 0] [1, 1]).1 (by decide)).1⟩

/-- Counterexample for C9: for encodings summing to 1 and 2 the node has
context binding (1 + 2 > 0) but is not aligned (1 ≠ 2), and still receives
the high fault-tolerance constant 0.9 — so the high constant is not
equivalent to alignment. -/
theorem map_coordinates_fault_cex :
    (SelfHealing.map_execution_coordinates [1] [2]).data_algorithm_alignment = false ∧
    (SelfHealing.map_execution_coordinates [1] [2]).fault_tolerance_capability =
      mkRat 9 10 := by decide

/-- Claim C9 as amended: `map_execution_coordinates` sets `x` and `y` to the
sums of the two vectors, `context_binding` to the non-degeneracy predicate
`x + y > 0`, `alignment` to `context_binding ∧ x = y`, and the
fault-tolerance capability to the high constant 0.9 if and only if the node
has context binding (the low constant 0.1 otherwise) — alignment still
implies the high constant, but is not required for it. -/
theorem map_coordinates_spec (e c : List Int) :
    (SelfHealing.map_execution_coordinates e c).execution_coordinate.x_position =
      e.sum ∧
    (SelfHealing.map_execution_coordinates e c).execution_coordinate.y_position =
      c.sum ∧
    (SelfHealing.map_execution_coordinates e c).execution_coordinate.context_binding =
      decide (0 < e.sum + c.sum) ∧
    (SelfHealing.map_execution_coordinates e c).data_algorithm_alignment =
      ((SelfHealing.map_execution_coordinates e c).execution_coordinate.context_binding &&
        (e.sum == c.sum)) ∧
    (SelfHealing.map_execution_coordinates e c).fault_tolerance_capability =
      (if (SelfHealing.map_execution_coordinates e c).execution_coordinate.context_binding
        then mkRat 9 10 else mkRat 1 10) ∧
    ((SelfHealing.map_execution_coordinates e c).data_algorithm_alignment = true →
      (SelfHealing.map_execution_coordinates e c).fault_tolerance_capability = mkRat 9 10) := by
  refine ⟨rfl, rfl, rfl, rfl, rfl, ?_⟩
  intro h
  have hb : (SelfHealing.map_execution_coordinates e c).execution_coordinate.context_binding
      = true := by
    have h' : ((SelfHealing.map_execution_coordinates e c).execution_coordinate.context_binding
        && (e.sum == c.sum)) = true := h
    exact (Bool.and_eq_true _ _ |>.mp h').1
  have hb' : SelfHealing.validate_coordinate_context
      (SelfHealing.map_data_vector_to_x_axis e)
      (SelfHealing.map_algorithm_vector_to_y_axis c) = true := hb
  show (if SelfHealing.validate_coordinate_context
      (SelfHealing.map_data_vector_to_x_axis e) (SelfHealing.map_algorithm_vector_to_y_axis c)
      = true then mkRat 9 10 else mkRat 1 10) = mkRat 9 10
  rw [if_pos hb']

/-- Witness for C9 (amended): an aligned node (equal sums, positive total)
receives the high constant. -/
theorem map_coordinates_spec_witness :
    (SelfHealing.map_execution_coordinates [1] [1]).data_algorithm_alignment = true ∧
    (SelfHealing.map_execution_coordinates [1] [1]).fault_tolerance_capability = mkRat 9 10 :=
  ⟨by decide, (map_coordinates_spec [1] [1]).2.2.2.2.2 (by decide)⟩

/-- Claim C10: the encoders never consult their payload — for any two
payloads (of any types) and any non-empty format pattern, the data-model
and algorithm encodings coincide, and the complete fault-tolerant encoding
pairs built by the architecture are bit-identical regardless of payload. -/
theorem encoder_payload_noninterference (α β : Type) (d1 : α) (d2 : β) (f : List Int)
    (hf : f ≠ []) :
    SelfHealing.data_model_encode d1 f = SelfHealing.data_model_encode d2 f ∧
    SelfHealing.algorithm_encode d1 f = SelfHealing.algorithm_encode d2 f ∧
    SelfHealing.process_data_model_encoding d1 = SelfHealing.process_data_model_encoding d2 ∧
    SelfHealing.process_algorithm_encoding d1 = SelfHealing.process_algorithm_encoding d2 :=
  ⟨rfl, rfl, rfl, rfl⟩

/-- Witness for C10: a `Nat` payload and a `List Int` payload produce the
same encoding over the pattern `[1]`. -/
theorem encoder_payload_noninterference_witness :
    ([1] : List Int) ≠ [] ∧
    SelfHealing.data_model_encode (0 : Nat) [1] =
      SelfHealing.data_model_encode ([5] : List Int) [1] :=
  ⟨by decide, (encoder_payload_noninterference Nat (List Int) 0 [5] [1] (by decide)).1⟩

end WSys
